import Mathlib

/-!
Verification of the vibercizing exercise-detection core.

The definitions below are a shallow embedding of the TypeScript source:
`client/src/lib/exercises.ts` (landmark thresholds, the per-frame posture
classifier `detectJumpingJackPosition`, and the debounced rep-counting
detector `createJumpingJackDetector`), and the frame-processing loop of
`WebcamFeed` (session completion).  JavaScript numbers are modelled as
rationals, `Date.now()` timestamps as integers passed explicitly to
`processFrame`.  The server-side balance Ledger is not part of the sources;
it is modelled from the specification where indicated.
-/

namespace Vibercizing

/-- One MediaPipe pose landmark: normalized planar position, depth estimate,
and a visibility confidence.  Mirrors `interface Landmark` in
`exercises.ts`. -/
structure Landmark where
  x : ℚ
  y : ℚ
  z : ℚ
  visibility : ℚ
deriving DecidableEq, Repr

/-- The four posture states of `type JumpingJackState` in `exercises.ts`. -/
inductive JumpingJackState where
  | up
  | down
  | transition
  | unknown
deriving DecidableEq, Repr

-- MediaPipe landmark indices (`const LANDMARKS` in `exercises.ts`).
def LEFT_SHOULDER : ℕ := 11
def RIGHT_SHOULDER : ℕ := 12
def LEFT_WRIST : ℕ := 15
def RIGHT_WRIST : ℕ := 16
def LEFT_HIP : ℕ := 23
def RIGHT_HIP : ℕ := 24
def LEFT_ANKLE : ℕ := 27
def RIGHT_ANKLE : ℕ := 28

-- Detection thresholds (`export const THRESHOLDS` in `exercises.ts`).
def ARMS_UP_MARGIN : ℚ := mkRat 1 5
def FEET_SPREAD_RATIO : ℚ := 2
def MIN_VISIBILITY : ℚ := mkRat 3 10
def STATE_CHANGE_DEBOUNCE_MS : ℤ := 500

/-- Embeds `getLandmark` from `exercises.ts`: the landmark at `index`, or `none`
when the index is out of bounds or the visibility is below
`MIN_VISIBILITY`. -/
def getLandmark (pose : List Landmark) (index : ℕ) : Option Landmark :=
  match pose[index]? with
  | none => none
  | some lm => if lm.visibility < MIN_VISIBILITY then none else some lm

/-- Embeds `areArmsUp` from `exercises.ts`: both wrists strictly above their
respective shoulders by more than `ARMS_UP_MARGIN` (smaller y is higher);
`none` when any of the four arm landmarks is unavailable. -/
def areArmsUp (pose : List Landmark) : Option Bool :=
  match getLandmark pose LEFT_SHOULDER, getLandmark pose RIGHT_SHOULDER,
        getLandmark pose LEFT_WRIST, getLandmark pose RIGHT_WRIST with
  | some leftShoulder, some rightShoulder, some leftWrist, some rightWrist =>
      some (decide (leftWrist.y < leftShoulder.y - ARMS_UP_MARGIN) &&
            decide (rightWrist.y < rightShoulder.y - ARMS_UP_MARGIN))
  | _, _, _, _ => none

/-- Embeds `Math.abs` from JavaScript, on the rational model of its numbers. -/
def mathAbs (q : ℚ) : ℚ := if q < 0 then -q else q

/-- Embeds `areFeetApart` from `exercises.ts`: ankle spread strictly wider than
`FEET_SPREAD_RATIO` times the hip width; `none` when any of the four leg
landmarks is unavailable. -/
def areFeetApart (pose : List Landmark) : Option Bool :=
  match getLandmark pose LEFT_HIP, getLandmark pose RIGHT_HIP,
        getLandmark pose LEFT_ANKLE, getLandmark pose RIGHT_ANKLE with
  | some leftHip, some rightHip, some leftAnkle, some rightAnkle =>
      some (decide (mathAbs (rightAnkle.x - leftAnkle.x) >
                    mathAbs (rightHip.x - leftHip.x) * FEET_SPREAD_RATIO))
  | _, _, _, _ => none

/-- Embeds `detectJumpingJackPosition` from `exercises.ts`: arrays shorter than 33
entries give `unknown`; unavailable arms give `unknown`; unavailable legs
fall back to upper-body-only mode; otherwise `up` when both predicates
hold, `down` when both fail, `transition` otherwise. -/
def detectJumpingJackPosition (pose : List Landmark) : JumpingJackState :=
  if pose.length < 33 then .unknown
  else
    match areArmsUp pose, areFeetApart pose with
    | none, _ => .unknown
    | some armsUp, none => if armsUp then .up else .down
    | some armsUp, some feetApart =>
        if armsUp && feetApart then .up
        else if !armsUp && !feetApart then .down
        else .transition

/-- The mutable state captured by the closure of
`createJumpingJackDetector` in `exercises.ts`. -/
structure DetectorState where
  reps : ℕ
  currentState : JumpingJackState
  hasReachedUp : Bool
  lastStateChangeTime : ℤ
deriving DecidableEq, Repr

/-- The detector state at creation time: `reps = 0`,
`currentState` unknown, `hasReachedUp` false,
`lastStateChangeTime = 0`. -/
def initialDetector : DetectorState :=
  { reps := 0, currentState := .unknown, hasReachedUp := false,
    lastStateChangeTime := 0 }

/-- The body of `processFrame` in `createJumpingJackDetector`, with the
classified state already computed: ignore `unknown`, ignore same-state
frames, debounce changes arriving within `STATE_CHANGE_DEBOUNCE_MS` of the
last accepted change, set the flag on entering `up`, count a rep and clear
the flag on entering `down` with the flag set. -/
def stepClassified (s : DetectorState) (newState : JumpingJackState)
    (now : ℤ) : DetectorState :=
  if newState = .unknown then s
  else if newState = s.currentState then s
  else if now - s.lastStateChangeTime < STATE_CHANGE_DEBOUNCE_MS then s
  else
    let flag : Bool := if newState = .up then true else s.hasReachedUp
    if newState = .down ∧ flag then
      { reps := s.reps + 1, currentState := newState, hasReachedUp := false,
        lastStateChangeTime := now }
    else
      { reps := s.reps, currentState := newState, hasReachedUp := flag,
        lastStateChangeTime := now }

/-- Embeds `processFrame` from `createJumpingJackDetector` in `exercises.ts`;
`now` is the `Date.now()` reading of the call. -/
def processFrame (s : DetectorState) (pose : List Landmark) (now : ℤ) :
    DetectorState :=
  stepClassified s (detectJumpingJackPosition pose) now

/-- Embeds `reset` from `createJumpingJackDetector` in `exercises.ts`: zeroes all
four fields regardless of the current state. -/
def resetDetector (_s : DetectorState) : DetectorState := initialDetector

/-- Run the detector over a list of (pose, timestamp) frames in order. -/
def runFrames (s : DetectorState) (frames : List (List Landmark × ℤ)) :
    DetectorState :=
  frames.foldl (fun st f => processFrame st f.1 f.2) s

/-- A filler landmark at the center of the frame with full visibility. -/
def padLm : Landmark := { x := mkRat 1 2, y := mkRat 1 2, z := 0, visibility := 1 }

/-- Build a 33-entry pose fixing the eight landmarks the classifier reads
(indices 11, 12, 15, 16, 23, 24, 27, 28); every other entry is `padLm`. -/
def mkPose (ls rs lw rw lh rh la ra : Landmark) : List Landmark :=
  [padLm, padLm, padLm, padLm, padLm, padLm, padLm, padLm, padLm, padLm,
   padLm, ls, rs, padLm, padLm, lw, rw, padLm, padLm, padLm, padLm, padLm,
   padLm, lh, rh, padLm, padLm, la, ra, padLm, padLm, padLm, padLm]

/-- Shorthand for a fully visible landmark at planar position (x, y). -/
def lm (x y : ℚ) : Landmark := { x := x, y := y, z := 0, visibility := 1 }

/-- A pose in the `down` posture: wrists below shoulders and ankles close
together (hip width 1/10, spread 1/25). -/
def poseDown : List Landmark :=
  mkPose (lm (mkRat 2 5) (mkRat 3 10)) (lm (mkRat 3 5) (mkRat 3 10)) (lm (mkRat 3 10) (mkRat 1 2))
    (lm (mkRat 7 10) (mkRat 1 2)) (lm (mkRat 9 20) (mkRat 3 5)) (lm (mkRat 11 20) (mkRat 3 5))
    (lm (mkRat 12 25) (mkRat 9 10)) (lm (mkRat 13 25) (mkRat 9 10))

/-- A pose in the `up` posture: wrists well above shoulders and ankles
spread wide (spread 3/5 against hip width 1/10). -/
def poseUp : List Landmark :=
  mkPose (lm (mkRat 2 5) (mkRat 3 10)) (lm (mkRat 3 5) (mkRat 3 10)) (lm (mkRat 3 10) 0) (lm (mkRat 7 10) 0)
    (lm (mkRat 9 20) (mkRat 3 5)) (lm (mkRat 11 20) (mkRat 3 5)) (lm (mkRat 1 5) (mkRat 9 10))
    (lm (mkRat 4 5) (mkRat 9 10))

/-- A pose with arms up but feet together: classified `transition` in
full-body mode. -/
def poseArmsOnlyUp : List Landmark :=
  mkPose (lm (mkRat 2 5) (mkRat 3 10)) (lm (mkRat 3 5) (mkRat 3 10)) (lm (mkRat 3 10) 0) (lm (mkRat 7 10) 0)
    (lm (mkRat 9 20) (mkRat 3 5)) (lm (mkRat 11 20) (mkRat 3 5)) (lm (mkRat 12 25) (mkRat 9 10))
    (lm (mkRat 13 25) (mkRat 9 10))

/-- An invisible landmark (visibility 0, below `MIN_VISIBILITY`). -/
def hiddenLm : Landmark := { x := mkRat 1 2, y := mkRat 9 10, z := 0, visibility := 0 }

/-- A pose whose arm landmarks are visible (wrists above shoulders) but
whose ankles are invisible: upper-body-only mode applies. -/
def poseUpperUp : List Landmark :=
  mkPose (lm (mkRat 2 5) (mkRat 3 10)) (lm (mkRat 3 5) (mkRat 3 10)) (lm (mkRat 3 10) 0) (lm (mkRat 7 10) 0)
    (lm (mkRat 9 20) (mkRat 3 5)) (lm (mkRat 11 20) (mkRat 3 5)) hiddenLm hiddenLm

/-- Same as `poseUpperUp` with wrists below the shoulders: upper-body-only
mode classifies it `down`. -/
def poseUpperDown : List Landmark :=
  mkPose (lm (mkRat 2 5) (mkRat 3 10)) (lm (mkRat 3 5) (mkRat 3 10)) (lm (mkRat 3 10) (mkRat 1 2))
    (lm (mkRat 7 10) (mkRat 1 2)) (lm (mkRat 9 20) (mkRat 3 5)) (lm (mkRat 11 20) (mkRat 3 5)) hiddenLm hiddenLm

/-- The completion event synthesized by the `WebcamFeed` frame loop and
sent over `onExerciseComplete(exercise, reps)`. -/
structure CompletionEvent where
  exerciseKind : String
  repsCompleted : ℕ
deriving DecidableEq, Repr

/-- The session state of the `WebcamFeed` frame loop: the wrapped detector
and the `currentReps` counter of the store. -/
structure SessionState where
  detector : DetectorState
  currentReps : ℕ
deriving DecidableEq, Repr

/-- The per-frame rep-handling block of `WebcamFeed.processFrame` (the
`if (pose)` branch): compare the rep count of the detector before and after
the frame, increment the store counter on a new rep, and on reaching
`targetReps` emit a completion event, reset the detector, and zero the
store counter. -/
def sessionProcessFrame (targetReps : ℕ) (s : SessionState)
    (pose : List Landmark) (now : ℤ) :
    SessionState × Option CompletionEvent :=
  let prevReps := s.detector.reps
  let d := processFrame s.detector pose now
  let newReps := d.reps
  if newReps > prevReps then
    if newReps ≥ targetReps then
      ({ detector := resetDetector d, currentReps := 0 },
       some { exerciseKind := "jumping_jacks", repsCompleted := newReps })
    else
      ({ detector := d, currentReps := s.currentReps + 1 }, none)
  else
    ({ detector := d, currentReps := s.currentReps }, none)

/-- Modelled from the spec: the balance Ledger record of §4.3 (the server
implementation is not among the sources).  Two non-negative counters,
`earned` and `spent`. -/
structure Ledger where
  earned : ℕ
  spent : ℕ
deriving DecidableEq, Repr

/-- Modelled from the spec: the ledger created at system initialization
with `earned = spent = 0`. -/
def initialLedger : Ledger := { earned := 0, spent := 0 }

/-- Modelled from the spec: available balance = `earned - spent` (an
integer, so that non-negativity is a theorem, not a typing artifact). -/
def available (l : Ledger) : ℤ := (l.earned : ℤ) - (l.spent : ℤ)

/-- Modelled from the spec: outcome of a ledger mutation — success with
the new balance, `InsufficientBalance` with the unchanged current balance,
or `InvalidAmount` for a non-positive amount. -/
inductive LedgerResult where
  | ok (newBalance : ℤ)
  | insufficientBalance (currentBalance : ℤ)
  | invalidAmount
deriving DecidableEq, Repr

/-- Modelled from the spec: `credit(amount)` — rejects non-positive
amounts with `InvalidAmount` and no mutation; otherwise unconditionally
increases `earned` and returns the resulting available balance. -/
def credit (l : Ledger) (amount : ℤ) : Ledger × LedgerResult :=
  if amount ≤ 0 then (l, .invalidAmount)
  else
    let l2 : Ledger := { earned := l.earned + amount.toNat, spent := l.spent }
    (l2, .ok (available l2))

/-- Modelled from the spec: `spend(amount)` — rejects non-positive amounts
with `InvalidAmount`; succeeds only if the available balance is at least
`amount`, increasing `spent`; otherwise fails with `InsufficientBalance`
and no mutation. -/
def spend (l : Ledger) (amount : ℤ) : Ledger × LedgerResult :=
  if amount ≤ 0 then (l, .invalidAmount)
  else if available l < amount then (l, .insufficientBalance (available l))
  else
    let l2 : Ledger := { earned := l.earned, spent := l.spent + amount.toNat }
    (l2, .ok (available l2))

/-- Modelled from the spec: one serialized ledger mutation, as ordered by
the strict total order of the Transaction Coordinator. -/
inductive LedgerOp where
  | creditOp (amount : ℤ)
  | spendOp (amount : ℤ)
deriving DecidableEq, Repr

/-- Apply one serialized operation to the ledger (result code dropped). -/
def applyOp (l : Ledger) : LedgerOp → Ledger
  | .creditOp amount => (credit l amount).1
  | .spendOp amount => (spend l amount).1

/-- Apply a serialized sequence of ledger operations in order. -/
def runOps (l : Ledger) (ops : List LedgerOp) : Ledger :=
  ops.foldl applyOp l

/-- The total amount credited by the valid (positive-amount) credit
operations of a sequence. -/
def creditTotal : List LedgerOp → ℕ
  | [] => 0
  | .creditOp amount :: ops =>
      (if 0 < amount then amount.toNat else 0) + creditTotal ops
  | .spendOp _ :: ops => creditTotal ops

/-- Modelled from the spec: N serialized `spend(1)` calls, as the
total order of the Transaction Coordinator arranges concurrent callers;
returns the final ledger, the number of successes, and the number of
`InsufficientBalance` failures. -/
def spendOnes (l : Ledger) : ℕ → Ledger × ℕ × ℕ
  | 0 => (l, 0, 0)
  | n + 1 =>
      let s := spend l 1
      let r := spendOnes s.1 n
      match s.2 with
      | .ok _ => (r.1, r.2.1 + 1, r.2.2)
      | _ => (r.1, r.2.1, r.2.2 + 1)

/-- The arms-up sub-predicate of the posture rule, on the four arm
landmarks: both wrists above their respective shoulders by more than
`ARMS_UP_MARGIN` (smaller y is higher). -/
def armsUpProp (ls rs lw rw : Landmark) : Prop :=
  lw.y < ls.y - ARMS_UP_MARGIN ∧ rw.y < rs.y - ARMS_UP_MARGIN

/-- The feet-apart sub-predicate of the posture rule, on the four leg
landmarks: ankle spread greater than `FEET_SPREAD_RATIO` times the hip
width. -/
def feetApartProp (lh rh la ra : Landmark) : Prop :=
  mathAbs (ra.x - la.x) > mathAbs (rh.x - lh.x) * FEET_SPREAD_RATIO

section Proofs

attribute [local semireducible] Rat.add Rat.sub Rat.mul

/-- A frame classified `unknown` is ignored by the detector step. -/
theorem stepClassified_unknown (s : DetectorState) (now : ℤ) :
    stepClassified s .unknown now = s := rfl

/-- A same-state frame is ignored by the detector step. -/
theorem stepClassified_same (s : DetectorState) (c : JumpingJackState)
    (now : ℤ) (h : c = s.currentState) : stepClassified s c now = s := by
  simp only [stepClassified]
  split_ifs <;> simp_all

/-- A change arriving within the debounce interval of the last accepted
change is dropped, whatever it is. -/
theorem stepClassified_debounced (s : DetectorState) (c : JumpingJackState)
    (now : ℤ) (h3 : now - s.lastStateChangeTime < STATE_CHANGE_DEBOUNCE_MS) :
    stepClassified s c now = s := by
  simp only [stepClassified]
  split_ifs <;> first | rfl | omega

/-- An accepted transition into `up` keeps the rep count, sets the
reached-extended flag, and stamps the debounce clock. -/
theorem stepClassified_accept_up (s : DetectorState) (now : ℤ)
    (h2 : s.currentState ≠ .up)
    (h3 : STATE_CHANGE_DEBOUNCE_MS ≤ now - s.lastStateChangeTime) :
    stepClassified s .up now =
      { reps := s.reps, currentState := .up, hasReachedUp := true,
        lastStateChangeTime := now } := by
  simp only [stepClassified]
  split_ifs <;> simp_all <;> omega

/-- An accepted transition into `down` with the flag set counts one rep
and clears the flag. -/
theorem stepClassified_accept_down_flag (s : DetectorState) (now : ℤ)
    (h2 : s.currentState ≠ .down) (hf : s.hasReachedUp = true)
    (h3 : STATE_CHANGE_DEBOUNCE_MS ≤ now - s.lastStateChangeTime) :
    stepClassified s .down now =
      { reps := s.reps + 1, currentState := .down, hasReachedUp := false,
        lastStateChangeTime := now } := by
  simp only [stepClassified]
  split_ifs <;> simp_all <;> omega

/-- An accepted transition into `down` with the flag clear counts
nothing. -/
theorem stepClassified_accept_down_noflag (s : DetectorState) (now : ℤ)
    (h2 : s.currentState ≠ .down) (hf : s.hasReachedUp = false)
    (h3 : STATE_CHANGE_DEBOUNCE_MS ≤ now - s.lastStateChangeTime) :
    stepClassified s .down now =
      { reps := s.reps, currentState := .down, hasReachedUp := false,
        lastStateChangeTime := now } := by
  simp only [stepClassified]
  split_ifs <;> simp_all <;> omega

/-- An accepted transition into `transition` changes only the reported
state and the debounce clock. -/
theorem stepClassified_accept_transition (s : DetectorState) (now : ℤ)
    (h2 : s.currentState ≠ .transition)
    (h3 : STATE_CHANGE_DEBOUNCE_MS ≤ now - s.lastStateChangeTime) :
    stepClassified s .transition now =
      { reps := s.reps, currentState := .transition,
        hasReachedUp := s.hasReachedUp, lastStateChangeTime := now } := by
  simp only [stepClassified]
  split_ifs <;> simp_all <;> omega

/-- One detector step never decreases the rep count. -/
theorem stepClassified_reps_mono (s : DetectorState) (c : JumpingJackState)
    (now : ℤ) : s.reps ≤ (stepClassified s c now).reps := by
  simp only [stepClassified]
  split_ifs <;> simp

/-- One detector step increases the rep count by at most one. -/
theorem stepClassified_reps_succ_le (s : DetectorState)
    (c : JumpingJackState) (now : ℤ) :
    (stepClassified s c now).reps ≤ s.reps + 1 := by
  simp only [stepClassified]
  split_ifs <;> simp

/-- Any step that changes the detector state at all is an accepted state
change: it stamps the clock with `now`, reports the classified state, and
happened at least the debounce interval after the last accepted change. -/
theorem stepClassified_changed (s : DetectorState) (c : JumpingJackState)
    (now : ℤ) (h : stepClassified s c now ≠ s) :
    (stepClassified s c now).lastStateChangeTime = now ∧
    (stepClassified s c now).currentState = c ∧
    STATE_CHANGE_DEBOUNCE_MS ≤ now - s.lastStateChangeTime := by
  revert h
  simp only [stepClassified]
  split_ifs <;> intro h <;> simp_all <;> omega

/-- Converse of rep counting: if a step changes the rep count at all, the
frame was an accepted (state-changing, debounce-satisfying) transition
into `down` while the flag was set, the count grew by exactly one, and
the flag was cleared. -/
theorem stepClassified_reps_changed (s : DetectorState)
    (c : JumpingJackState) (now : ℤ)
    (h : (stepClassified s c now).reps ≠ s.reps) :
    c = .down ∧ s.currentState ≠ .down ∧ s.hasReachedUp = true ∧
    STATE_CHANGE_DEBOUNCE_MS ≤ now - s.lastStateChangeTime ∧
    (stepClassified s c now).reps = s.reps + 1 ∧
    (stepClassified s c now).hasReachedUp = false := by
  by_cases h1 : c = .unknown
  · rw [h1, stepClassified_unknown] at h
    exact absurd rfl h
  by_cases h2 : c = s.currentState
  · rw [stepClassified_same s c now h2] at h
    exact absurd rfl h
  by_cases h3 : now - s.lastStateChangeTime < STATE_CHANGE_DEBOUNCE_MS
  · rw [stepClassified_debounced s c now h3] at h
    exact absurd rfl h
  by_cases hc : c = .down
  · subst hc
    by_cases hf : s.hasReachedUp = true
    · rw [stepClassified_accept_down_flag s now (fun hh => h2 hh.symm) hf
          (by omega)] at h ⊢
      exact ⟨rfl, fun hh => h2 hh.symm, hf, by omega, rfl, rfl⟩
    · rw [stepClassified_accept_down_noflag s now (fun hh => h2 hh.symm)
          (by simpa using hf) (by omega)] at h
      exact absurd rfl h
  · exfalso
    apply h
    rcases c with _ | _ | _ | _
    · rw [stepClassified_accept_up s now (fun hh => h2 hh.symm) (by omega)]
    · exact absurd rfl hc
    · rw [stepClassified_accept_transition s now (fun hh => h2 hh.symm)
          (by omega)]
    · exact absurd rfl h1

/-- While the flag is clear, frames not classified `up` keep it clear and
leave the rep count unchanged. -/
theorem stepClassified_flag_stays_false (s : DetectorState)
    (c : JumpingJackState) (now : ℤ) (hf : s.hasReachedUp = false)
    (hc : c ≠ .up) :
    (stepClassified s c now).hasReachedUp = false ∧
    (stepClassified s c now).reps = s.reps := by
  simp only [stepClassified]
  split_ifs <;> simp_all

/-- Ledger mutations preserve `spent ≤ earned`. -/
theorem applyOp_spent_le (l : Ledger) (op : LedgerOp)
    (h : l.spent ≤ l.earned) : (applyOp l op).spent ≤ (applyOp l op).earned := by
  cases op with
  | creditOp a =>
      simp only [applyOp, credit]
      split_ifs <;> simp <;> omega
  | spendOp a =>
      simp only [applyOp, spend, available]
      split_ifs <;> simp_all <;> omega

/-- The invariant `spent ≤ earned` holds after any serialized operation sequence. -/
theorem runOps_spent_le (ops : List LedgerOp) : ∀ l : Ledger,
    l.spent ≤ l.earned → (runOps l ops).spent ≤ (runOps l ops).earned := by
  induction ops with
  | nil => intro l h; exact h
  | cons op ops ih => intro l h; exact ih _ (applyOp_spent_le l op h)

/-- The `spend` operation never touches the `earned` counter. -/
theorem spend_earned (l : Ledger) (a : ℤ) : ((spend l a).1).earned = l.earned := by
  simp only [spend]
  split_ifs <;> rfl

/-- Every valid credit lands in `earned`, regardless of interleaved
spends: the final `earned` counter is the initial one plus the total of
the positive credit amounts of the sequence. -/
theorem runOps_earned (ops : List LedgerOp) : ∀ l : Ledger,
    (runOps l ops).earned = l.earned + creditTotal ops := by
  induction ops with
  | nil => intro l; simp [runOps, creditTotal]
  | cons op ops ih =>
      intro l
      have hstep : runOps l (op :: ops) = runOps (applyOp l op) ops := rfl
      rw [hstep, ih]
      cases op with
      | creditOp a =>
          simp only [applyOp, credit, creditTotal]
          split_ifs <;> simp <;> omega
      | spendOp a =>
          simp only [applyOp, creditTotal, spend_earned]

/-- With all four arm landmarks available, `areArmsUp` computes the two
per-arm comparisons. -/
theorem areArmsUp_eq (pose : List Landmark) (ls rs lw rw : Landmark)
    (h11 : getLandmark pose LEFT_SHOULDER = some ls)
    (h12 : getLandmark pose RIGHT_SHOULDER = some rs)
    (h15 : getLandmark pose LEFT_WRIST = some lw)
    (h16 : getLandmark pose RIGHT_WRIST = some rw) :
    areArmsUp pose = some (decide (lw.y < ls.y - ARMS_UP_MARGIN) &&
      decide (rw.y < rs.y - ARMS_UP_MARGIN)) := by
  unfold areArmsUp
  rw [h11, h12, h15, h16]

/-- With all four leg landmarks available, `areFeetApart` computes the
spread comparison. -/
theorem areFeetApart_eq (pose : List Landmark) (lh rh la ra : Landmark)
    (h23 : getLandmark pose LEFT_HIP = some lh)
    (h24 : getLandmark pose RIGHT_HIP = some rh)
    (h27 : getLandmark pose LEFT_ANKLE = some la)
    (h28 : getLandmark pose RIGHT_ANKLE = some ra) :
    areFeetApart pose = some (decide (mathAbs (ra.x - la.x) >
      mathAbs (rh.x - lh.x) * FEET_SPREAD_RATIO)) := by
  unfold areFeetApart
  rw [h23, h24, h27, h28]

/-- If any leg landmark is unavailable, `areFeetApart` is `none`. -/
theorem areFeetApart_none (pose : List Landmark)
    (h : getLandmark pose LEFT_HIP = none ∨ getLandmark pose RIGHT_HIP = none ∨
         getLandmark pose LEFT_ANKLE = none ∨ getLandmark pose RIGHT_ANKLE = none) :
    areFeetApart pose = none := by
  unfold areFeetApart
  rcases h1 : getLandmark pose LEFT_HIP with _ | lh <;>
    rcases h2 : getLandmark pose RIGHT_HIP with _ | rh <;>
      rcases h3 : getLandmark pose LEFT_ANKLE with _ | la <;>
        rcases h4 : getLandmark pose RIGHT_ANKLE with _ | ra <;>
          simp_all

/-- The classifier in full-body mode, by the values of the two boolean
tests. -/
theorem detect_full (pose : List Landmark) (hlen : ¬ pose.length < 33)
    (a f : Bool) (ha : areArmsUp pose = some a)
    (hf : areFeetApart pose = some f) :
    detectJumpingJackPosition pose =
      (if a && f then .up else if !a && !f then .down else .transition) := by
  unfold detectJumpingJackPosition
  rw [if_neg hlen, ha, hf]

/-- The classifier in upper-body-only mode, by the value of the arms
test. -/
theorem detect_upper (pose : List Landmark) (hlen : ¬ pose.length < 33)
    (a : Bool) (ha : areArmsUp pose = some a)
    (hf : areFeetApart pose = none) :
    detectJumpingJackPosition pose = (if a then .up else .down) := by
  unfold detectJumpingJackPosition
  rw [if_neg hlen, ha, hf]

/-- C5: for a pose of at least 33 landmarks in which all eight required
landmarks meet the visibility threshold, the classifier returns `up`
exactly when both sub-predicates hold (both wrists above their respective
shoulders by more than the margin, and ankle spread greater than the
hip-width ratio), `down` exactly when both are false, and `transition` in
every other case. -/
theorem C5_classifier_cases (pose : List Landmark)
    (ls rs lw rw lh rh la ra : Landmark) (hlen : 33 ≤ pose.length)
    (h11 : getLandmark pose LEFT_SHOULDER = some ls)
    (h12 : getLandmark pose RIGHT_SHOULDER = some rs)
    (h15 : getLandmark pose LEFT_WRIST = some lw)
    (h16 : getLandmark pose RIGHT_WRIST = some rw)
    (h23 : getLandmark pose LEFT_HIP = some lh)
    (h24 : getLandmark pose RIGHT_HIP = some rh)
    (h27 : getLandmark pose LEFT_ANKLE = some la)
    (h28 : getLandmark pose RIGHT_ANKLE = some ra) :
    (detectJumpingJackPosition pose = .up ↔
        (armsUpProp ls rs lw rw ∧ feetApartProp lh rh la ra)) ∧
    (detectJumpingJackPosition pose = .down ↔
        (¬ armsUpProp ls rs lw rw ∧ ¬ feetApartProp lh rh la ra)) ∧
    (detectJumpingJackPosition pose = .transition ↔
        (¬ (armsUpProp ls rs lw rw ∧ feetApartProp lh rh la ra) ∧
         ¬ (¬ armsUpProp ls rs lw rw ∧ ¬ feetApartProp lh rh la ra))) := by
  have ha := areArmsUp_eq pose ls rs lw rw h11 h12 h15 h16
  have hf := areFeetApart_eq pose lh rh la ra h23 h24 h27 h28
  have hd := detect_full pose (by omega) _ _ ha hf
  rw [hd]
  unfold armsUpProp feetApartProp
  by_cases hp1 : lw.y < ls.y - ARMS_UP_MARGIN <;>
    by_cases hp2 : rw.y < rs.y - ARMS_UP_MARGIN <;>
      by_cases hq : mathAbs (ra.x - la.x) > mathAbs (rh.x - lh.x) * FEET_SPREAD_RATIO <;>
        simp [hp1, hp2, hq]

/-- C5 witness: `poseUp` satisfies both sub-predicates and is classified
`up`. -/
theorem C5_classifier_cases_witness :
    detectJumpingJackPosition poseUp = .up :=
  (C5_classifier_cases poseUp
      (lm (mkRat 2 5) (mkRat 3 10)) (lm (mkRat 3 5) (mkRat 3 10))
      (lm (mkRat 3 10) 0) (lm (mkRat 7 10) 0)
      (lm (mkRat 9 20) (mkRat 3 5)) (lm (mkRat 11 20) (mkRat 3 5))
      (lm (mkRat 1 5) (mkRat 9 10)) (lm (mkRat 4 5) (mkRat 9 10))
      (by decide) (by decide) (by decide) (by decide) (by decide)
      (by decide) (by decide) (by decide) (by decide)).1.mpr
    ⟨⟨by decide, by decide⟩, by unfold feetApartProp; decide⟩

/-- C6: a frame classified `unknown`, and likewise a frame classified the
same as the current state, leaves the detector state — rep count,
reported posture state, reached-extended flag, and debounce timestamp —
entirely unchanged. -/
theorem C6_noop_frames :
    (∀ (s : DetectorState) (pose : List Landmark) (now : ℤ),
        detectJumpingJackPosition pose = .unknown →
        processFrame s pose now = s) ∧
    (∀ (s : DetectorState) (pose : List Landmark) (now : ℤ),
        detectJumpingJackPosition pose = s.currentState →
        processFrame s pose now = s) := by
  constructor
  · intro s pose now h
    unfold processFrame
    rw [h]
    exact stepClassified_unknown s now
  · intro s pose now h
    unfold processFrame
    rw [h]
    exact stepClassified_same s s.currentState now rfl

/-- C6 witness: an empty (hence `unknown`) frame leaves a mid-session
detector state untouched. -/
theorem C6_noop_frames_witness :
    processFrame
        { reps := 3, currentState := .up, hasReachedUp := true,
          lastStateChangeTime := 2000 } [] 2100 =
      { reps := 3, currentState := .up, hasReachedUp := true,
        lastStateChangeTime := 2000 } :=
  C6_noop_frames.1 _ [] 2100 (by decide)

/-- C7: a pose array with fewer than 33 entries is classified `unknown`,
and processing it never changes the detector state — a malformed landmark
set is absorbed, not surfaced as an error. -/
theorem C7_short_pose_unknown :
    ∀ pose : List Landmark, pose.length < 33 →
      detectJumpingJackPosition pose = .unknown ∧
      ∀ (s : DetectorState) (now : ℤ), processFrame s pose now = s := by
  intro pose h
  have hd : detectJumpingJackPosition pose = .unknown := by
    unfold detectJumpingJackPosition
    rw [if_pos h]
  refine ⟨hd, fun s now => ?_⟩
  unfold processFrame
  rw [hd]
  exact stepClassified_unknown s now

/-- C7 witness: the empty pose is `unknown` and is a no-op on a fresh
detector. -/
theorem C7_short_pose_unknown_witness :
    detectJumpingJackPosition [] = .unknown ∧
    processFrame initialDetector [] 100 = initialDetector :=
  ⟨(C7_short_pose_unknown [] (by decide)).1,
   (C7_short_pose_unknown [] (by decide)).2 initialDetector 100⟩

/-- C8: the completed-rep count never decreases under frame processing,
increases by at most one per frame, and only `reset` returns it to
zero. -/
theorem C8_reps_monotone :
    ∀ (s : DetectorState) (pose : List Landmark) (now : ℤ),
      s.reps ≤ (processFrame s pose now).reps ∧
      (processFrame s pose now).reps ≤ s.reps + 1 ∧
      (resetDetector s).reps = 0 := by
  intro s pose now
  exact ⟨stepClassified_reps_mono s _ now, stepClassified_reps_succ_le s _ now,
    rfl⟩

/-- C10: in upper-body-only fallback mode — arm landmarks visible, at
least one hip or ankle landmark unavailable — the classifier returns only
`up` or `down`, never `transition`: `up` exactly when the arms-up
predicate holds, `down` otherwise, feet ignored. -/
theorem C10_upper_body_fallback (pose : List Landmark)
    (ls rs lw rw : Landmark) (hlen : 33 ≤ pose.length)
    (h11 : getLandmark pose LEFT_SHOULDER = some ls)
    (h12 : getLandmark pose RIGHT_SHOULDER = some rs)
    (h15 : getLandmark pose LEFT_WRIST = some lw)
    (h16 : getLandmark pose RIGHT_WRIST = some rw)
    (hleg : getLandmark pose LEFT_HIP = none ∨
            getLandmark pose RIGHT_HIP = none ∨
            getLandmark pose LEFT_ANKLE = none ∨
            getLandmark pose RIGHT_ANKLE = none) :
    (detectJumpingJackPosition pose = .up ∨
     detectJumpingJackPosition pose = .down) ∧
    (detectJumpingJackPosition pose = .up ↔ armsUpProp ls rs lw rw) ∧
    (detectJumpingJackPosition pose = .down ↔ ¬ armsUpProp ls rs lw rw) := by
  have ha := areArmsUp_eq pose ls rs lw rw h11 h12 h15 h16
  have hf := areFeetApart_none pose hleg
  have hd := detect_upper pose (by omega) _ ha hf
  rw [hd]
  unfold armsUpProp
  by_cases hp1 : lw.y < ls.y - ARMS_UP_MARGIN <;>
    by_cases hp2 : rw.y < rs.y - ARMS_UP_MARGIN <;>
      simp [hp1, hp2]

/-- C10 witness: with invisible ankles and wrists raised, the fallback
classifies `up`. -/
theorem C10_upper_body_fallback_witness :
    detectJumpingJackPosition poseUpperUp = .up :=
  (C10_upper_body_fallback poseUpperUp
      (lm (mkRat 2 5) (mkRat 3 10)) (lm (mkRat 3 5) (mkRat 3 10))
      (lm (mkRat 3 10) 0) (lm (mkRat 7 10) 0)
      (by decide) (by decide) (by decide) (by decide) (by decide)
      (Or.inr (Or.inr (Or.inl (by decide))))).2.1.mpr
    ⟨by decide, by decide⟩

/-- C1: a debounced `Down, Up, Down` cycle from a fresh detector counts
one rep; `Down, Down, Down` counts none; `Down, Up, Up, Down` (duplicate
`Up`) counts one, not two; and the counter increments exactly on an
accepted transition into `down` with the reached-extended flag set: such
a transition adds one and clears the flag, and conversely any frame that
changes the counter at all was such a transition, added exactly one, and
cleared the flag. -/
theorem C1_rep_counting :
    (∀ (p1 p2 p3 : List Landmark) (t1 t2 t3 : ℤ),
        detectJumpingJackPosition p1 = .down →
        detectJumpingJackPosition p2 = .up →
        detectJumpingJackPosition p3 = .down →
        STATE_CHANGE_DEBOUNCE_MS ≤ t1 → STATE_CHANGE_DEBOUNCE_MS ≤ t2 - t1 →
        STATE_CHANGE_DEBOUNCE_MS ≤ t3 - t2 →
        (runFrames initialDetector [(p1, t1), (p2, t2), (p3, t3)]).reps = 1) ∧
    (∀ (p1 p2 p3 : List Landmark) (t1 t2 t3 : ℤ),
        detectJumpingJackPosition p1 = .down →
        detectJumpingJackPosition p2 = .down →
        detectJumpingJackPosition p3 = .down →
        (runFrames initialDetector [(p1, t1), (p2, t2), (p3, t3)]).reps = 0) ∧
    (∀ (p1 p2 p3 p4 : List Landmark) (t1 t2 t3 t4 : ℤ),
        detectJumpingJackPosition p1 = .down →
        detectJumpingJackPosition p2 = .up →
        detectJumpingJackPosition p3 = .up →
        detectJumpingJackPosition p4 = .down →
        STATE_CHANGE_DEBOUNCE_MS ≤ t1 → STATE_CHANGE_DEBOUNCE_MS ≤ t2 - t1 →
        STATE_CHANGE_DEBOUNCE_MS ≤ t3 - t2 → STATE_CHANGE_DEBOUNCE_MS ≤ t4 - t3 →
        (runFrames initialDetector [(p1, t1), (p2, t2), (p3, t3), (p4, t4)]).reps
          = 1) ∧
    (∀ (s : DetectorState) (pose : List Landmark) (now : ℤ),
        detectJumpingJackPosition pose = .down → s.currentState ≠ .down →
        s.hasReachedUp = true →
        STATE_CHANGE_DEBOUNCE_MS ≤ now - s.lastStateChangeTime →
        (processFrame s pose now).reps = s.reps + 1 ∧
        (processFrame s pose now).hasReachedUp = false) ∧
    (∀ (s : DetectorState) (pose : List Landmark) (now : ℤ),
        (processFrame s pose now).reps ≠ s.reps →
        detectJumpingJackPosition pose = .down ∧ s.currentState ≠ .down ∧
        s.hasReachedUp = true ∧
        STATE_CHANGE_DEBOUNCE_MS ≤ now - s.lastStateChangeTime ∧
        (processFrame s pose now).reps = s.reps + 1 ∧
        (processFrame s pose now).hasReachedUp = false) := by
  refine ⟨?_, ?_, ?_, ?_, ?_⟩
  · intro p1 p2 p3 t1 t2 t3 h1 h2 h3 ht1 ht2 ht3
    have e1 : processFrame initialDetector p1 t1 =
        { reps := 0, currentState := .down, hasReachedUp := false,
          lastStateChangeTime := t1 } := by
      unfold processFrame
      rw [h1]
      exact stepClassified_accept_down_noflag _ _ (by simp [initialDetector])
        rfl (by simp [initialDetector]; omega)
    have e2 : processFrame
        { reps := 0, currentState := .down, hasReachedUp := false,
          lastStateChangeTime := t1 } p2 t2 =
        { reps := 0, currentState := .up, hasReachedUp := true,
          lastStateChangeTime := t2 } := by
      unfold processFrame
      rw [h2]
      exact stepClassified_accept_up _ _ (by simp) (by simp; omega)
    have e3 : processFrame
        { reps := 0, currentState := .up, hasReachedUp := true,
          lastStateChangeTime := t2 } p3 t3 =
        { reps := 1, currentState := .down, hasReachedUp := false,
          lastStateChangeTime := t3 } := by
      unfold processFrame
      rw [h3]
      exact stepClassified_accept_down_flag _ _ (by simp) rfl (by simp; omega)
    simp only [runFrames, List.foldl]
    rw [e1, e2, e3]
  · intro p1 p2 p3 t1 t2 t3 h1 h2 h3
    have key : ∀ (s : DetectorState) (p : List Landmark) (t : ℤ),
        detectJumpingJackPosition p = .down → s.hasReachedUp = false →
        (processFrame s p t).hasReachedUp = false ∧
        (processFrame s p t).reps = s.reps := by
      intro s p t hp hf
      unfold processFrame
      rw [hp]
      exact stepClassified_flag_stays_false s .down t hf (by simp)
    simp only [runFrames, List.foldl]
    obtain ⟨f1, r1⟩ := key initialDetector p1 t1 h1 rfl
    obtain ⟨f2, r2⟩ := key _ p2 t2 h2 f1
    obtain ⟨f3, r3⟩ := key _ p3 t3 h3 f2
    rw [r3, r2, r1]
    rfl
  · intro p1 p2 p3 p4 t1 t2 t3 t4 h1 h2 h3 h4 ht1 ht2 ht3 ht4
    have e1 : processFrame initialDetector p1 t1 =
        { reps := 0, currentState := .down, hasReachedUp := false,
          lastStateChangeTime := t1 } := by
      unfold processFrame
      rw [h1]
      exact stepClassified_accept_down_noflag _ _ (by simp [initialDetector])
        rfl (by simp [initialDetector]; omega)
    have e2 : processFrame
        { reps := 0, currentState := .down, hasReachedUp := false,
          lastStateChangeTime := t1 } p2 t2 =
        { reps := 0, currentState := .up, hasReachedUp := true,
          lastStateChangeTime := t2 } := by
      unfold processFrame
      rw [h2]
      exact stepClassified_accept_up _ _ (by simp) (by simp; omega)
    have e3 : processFrame
        { reps := 0, currentState := .up, hasReachedUp := true,
          lastStateChangeTime := t2 } p3 t3 =
        { reps := 0, currentState := .up, hasReachedUp := true,
          lastStateChangeTime := t2 } := by
      unfold processFrame
      rw [h3]
      exact stepClassified_same _ _ _ rfl
    have e4 : processFrame
        { reps := 0, currentState := .up, hasReachedUp := true,
          lastStateChangeTime := t2 } p4 t4 =
        { reps := 1, currentState := .down, hasReachedUp := false,
          lastStateChangeTime := t4 } := by
      unfold processFrame
      rw [h4]
      refine stepClassified_accept_down_flag _ _ (by simp) rfl ?_
      have hms : STATE_CHANGE_DEBOUNCE_MS = 500 := rfl
      simp only [hms] at ht3 ht4 ⊢
      omega
    simp only [runFrames, List.foldl]
    rw [e1, e2, e3, e4]
  · intro s pose now hp hcur hf ht
    unfold processFrame
    rw [hp, stepClassified_accept_down_flag s now hcur hf ht]
    exact ⟨rfl, rfl⟩
  · intro s pose now h
    exact stepClassified_reps_changed s (detectJumpingJackPosition pose) now h

/-- C1 witness: `Down, Up, Down` at times 500, 1000, 1500 yields one
rep. -/
theorem C1_rep_counting_witness :
    (runFrames initialDetector
      [(poseDown, 500), (poseUp, 1000), (poseDown, 1500)]).reps = 1 :=
  C1_rep_counting.1 poseDown poseUp poseDown 500 1000 1500 (by decide)
    (by decide) (by decide) (by decide) (by decide) (by decide)

/-- C2 counterexample: after an accepted change at time 1000, an opposite
qualifying frame at time 1500 — elapsed time exactly equal to the 500 ms
debounce interval, hence not exceeding it — is nevertheless accepted. -/
theorem C2_exceeds_counterexample :
    (processFrame initialDetector poseDown 1000).currentState =
        JumpingJackState.down ∧
    (processFrame initialDetector poseDown 1000).lastStateChangeTime = 1000 ∧
    (processFrame (processFrame initialDetector poseDown 1000) poseUp 1500).currentState
        = JumpingJackState.up ∧
    ¬ ((1500 : ℤ) - 1000 > STATE_CHANGE_DEBOUNCE_MS) := by
  refine ⟨by decide, by decide, by decide, by decide⟩

/-- C2 (amended): a changed, non-unknown posture state is accepted only
when at least the 500 ms debounce interval has elapsed since the last
accepted change; a candidate change arriving strictly within the interval
is dropped silently leaving the whole state unchanged; and after any
accepted change, any frame arriving strictly within the interval is
ignored, so two opposite qualifying frames less than the interval apart
are never both accepted. -/
theorem C2_debounce_amended :
    (∀ (s : DetectorState) (pose : List Landmark) (now : ℤ),
        now - s.lastStateChangeTime < STATE_CHANGE_DEBOUNCE_MS →
        processFrame s pose now = s) ∧
    (∀ (s : DetectorState) (pose : List Landmark) (now : ℤ),
        detectJumpingJackPosition pose ≠ .unknown →
        detectJumpingJackPosition pose ≠ s.currentState →
        STATE_CHANGE_DEBOUNCE_MS ≤ now - s.lastStateChangeTime →
        (processFrame s pose now).currentState = detectJumpingJackPosition pose ∧
        (processFrame s pose now).lastStateChangeTime = now) ∧
    (∀ (s : DetectorState) (p1 p2 : List Landmark) (t1 t2 : ℤ),
        processFrame s p1 t1 ≠ s → t2 - t1 < STATE_CHANGE_DEBOUNCE_MS →
        processFrame (processFrame s p1 t1) p2 t2 = processFrame s p1 t1) := by
  refine ⟨?_, ?_, ?_⟩
  · intro s pose now ht
    exact stepClassified_debounced s _ now ht
  · intro s pose now hu hne ht
    unfold processFrame
    generalize hc : detectJumpingJackPosition pose = c at hu hne
    simp only [stepClassified]
    split_ifs <;> simp_all <;> omega
  · intro s p1 p2 t1 t2 hch ht
    have h1 := stepClassified_changed s (detectJumpingJackPosition p1) t1 hch
    refine stepClassified_debounced _ _ _ ?_
    show t2 - (stepClassified s (detectJumpingJackPosition p1) t1).lastStateChangeTime
        < STATE_CHANGE_DEBOUNCE_MS
    rw [h1.1]
    omega

/-- C2 witness: a qualifying opposite frame 200 ms after the last
accepted change is dropped with the full state unchanged. -/
theorem C2_debounce_amended_witness :
    processFrame
        { reps := 0, currentState := .down, hasReachedUp := false,
          lastStateChangeTime := 1000 } poseUp 1200 =
      { reps := 0, currentState := .down, hasReachedUp := false,
        lastStateChangeTime := 1000 } :=
  C2_debounce_amended.1 _ poseUp 1200 (by decide)

/-- C3: with target 20, the session emits exactly one
completion event (jumping_jacks, 20 reps) at the frame on which the
rep count of the detector first reaches 20, resetting the detector and the store counter;
frames whose rep count stays below 20, or does not grow, emit nothing. -/
theorem C3_session_completion :
    (∀ (s : SessionState) (pose : List Landmark) (now : ℤ),
        s.detector.reps < 20 →
        20 ≤ (processFrame s.detector pose now).reps →
        sessionProcessFrame 20 s pose now =
          ({ detector := initialDetector, currentReps := 0 },
           some { exerciseKind := "jumping_jacks", repsCompleted := 20 })) ∧
    (∀ (s : SessionState) (pose : List Landmark) (now : ℤ),
        (processFrame s.detector pose now).reps < 20 →
        (sessionProcessFrame 20 s pose now).2 = none) ∧
    (∀ (s : SessionState) (pose : List Landmark) (now : ℤ),
        (processFrame s.detector pose now).reps ≤ s.detector.reps →
        (sessionProcessFrame 20 s pose now).2 = none) := by
  refine ⟨?_, ?_, ?_⟩
  · intro s pose now hprev hreach
    have hle : (processFrame s.detector pose now).reps ≤ s.detector.reps + 1 :=
      stepClassified_reps_succ_le _ _ _
    have h20 : (processFrame s.detector pose now).reps = 20 := by omega
    simp only [sessionProcessFrame]
    rw [if_pos (show (processFrame s.detector pose now).reps > s.detector.reps
          by omega),
        if_pos (show (processFrame s.detector pose now).reps ≥ 20 by omega),
        h20]
    rfl
  · intro s pose now h20
    simp only [sessionProcessFrame]
    split_ifs <;> first | rfl | omega
  · intro s pose now hle
    simp only [sessionProcessFrame]
    split_ifs <;> first | rfl | omega

/-- C3 witness: a 19-rep detector accepting its 20th rep emits the single
completion event and is reset. -/
theorem C3_session_completion_witness :
    sessionProcessFrame 20
        { detector :=
            { reps := 19, currentState := .up, hasReachedUp := true,
              lastStateChangeTime := 0 },
          currentReps := 19 } poseDown 500 =
      ({ detector := initialDetector, currentReps := 0 },
       some { exerciseKind := "jumping_jacks", repsCompleted := 20 }) :=
  C3_session_completion.1 _ poseDown 500 (by decide) (by decide)

/-- Under the serialization, N unit spends against balance B ≤ N give B
successes and N − B failures and drain the ledger to `spent = earned`. -/
theorem spendOnes_spec : ∀ (n : ℕ) (l : Ledger), l.spent ≤ l.earned →
    l.earned - l.spent ≤ n →
    spendOnes l n =
      ({ earned := l.earned, spent := l.earned }, l.earned - l.spent,
       n - (l.earned - l.spent)) := by
  intro n
  induction n with
  | zero =>
      intro l h hb
      have he : l.earned = l.spent := by omega
      cases l with
      | mk e sp =>
          simp only at he
          subst he
          simp [spendOnes]
  | succ n ih =>
      intro l h hb
      by_cases hB : l.earned = l.spent
      · have hsp : spend l 1 = (l, .insufficientBalance (available l)) := by
          simp only [spend, available]
          rw [if_neg (by omega), if_pos (by omega)]
        simp only [spendOnes, hsp]
        rw [ih l h (by omega)]
        have h0 : l.earned - l.spent = 0 := by omega
        simp [h0]
      · have hgt : l.spent < l.earned := by omega
        have hsp : spend l 1 =
            ({ earned := l.earned, spent := l.spent + 1 },
             .ok (available { earned := l.earned, spent := l.spent + 1 })) := by
          simp only [spend, available]
          rw [if_neg (by omega), if_neg (by push_cast; omega)]
          rfl
        simp only [spendOnes, hsp]
        rw [ih { earned := l.earned, spent := l.spent + 1 }
              (by simp; omega) (by simp; omega)]
        simp only [Prod.mk.injEq]
        refine ⟨by trivial, by omega, by omega⟩

/-- C4: from the initial ledger, after any serialized sequence of credit
and spend operations (hence at every intermediate point, each prefix
being such a sequence) the available balance equals earned minus spent
and is non-negative; and a spend exceeding the available balance fails
with `InsufficientBalance`, leaving both counters unchanged. -/
theorem C4_ledger_invariant :
    (∀ ops : List LedgerOp,
        available (runOps initialLedger ops) =
          ((runOps initialLedger ops).earned : ℤ) -
            ((runOps initialLedger ops).spent : ℤ) ∧
        0 ≤ available (runOps initialLedger ops)) ∧
    (∀ (l : Ledger) (amount : ℤ), l.spent ≤ l.earned →
        available l < amount →
        spend l amount = (l, .insufficientBalance (available l))) := by
  constructor
  · intro ops
    refine ⟨rfl, ?_⟩
    have h := runOps_spent_le ops initialLedger (by simp [initialLedger])
    simp only [available]
    omega
  · intro l amount h hlt
    have hpos : ¬ amount ≤ 0 := by simp only [available] at hlt; omega
    simp only [spend]
    rw [if_neg hpos, if_pos hlt]

/-- C4 witness: spending 5 against available balance 1 is rejected with
no mutation. -/
theorem C4_ledger_invariant_witness :
    spend { earned := 2, spent := 1 } 5 =
      ({ earned := 2, spent := 1 },
       .insufficientBalance (available { earned := 2, spent := 1 })) :=
  C4_ledger_invariant.2 { earned := 2, spent := 1 } 5 (by decide) (by decide)

/-- C9: under the strict total order of the Transaction Coordinator, N
serialized `spend(1)` calls against a ledger with available balance B < N
give exactly B successes and N − B `InsufficientBalance` failures with
final available balance 0; and no credit is lost to interleaved spends:
the final `earned` counter is the initial one plus the total of the valid
credit amounts of the sequence. -/
theorem C9_concurrent_spend :
    (∀ (l : Ledger) (n : ℕ), l.spent ≤ l.earned →
        l.earned - l.spent < n →
        spendOnes l n =
          ({ earned := l.earned, spent := l.earned }, l.earned - l.spent,
           n - (l.earned - l.spent)) ∧
        available (spendOnes l n).1 = 0) ∧
    (∀ (l : Ledger) (ops : List LedgerOp),
        (runOps l ops).earned = l.earned + creditTotal ops) := by
  constructor
  · intro l n h hlt
    have hs := spendOnes_spec n l h (by omega)
    refine ⟨hs, ?_⟩
    rw [hs]
    simp [available]
  · intro l ops
    exact runOps_earned ops l

/-- C9 witness: 5 unit spends against available balance 2 give 2
successes, 3 failures, and an empty balance. -/
theorem C9_concurrent_spend_witness :
    spendOnes { earned := 3, spent := 1 } 5 =
      ({ earned := 3, spent := 3 }, 2, 3) ∧
    available (spendOnes { earned := 3, spent := 1 } 5).1 = 0 :=
  C9_concurrent_spend.1 { earned := 3, spent := 1 } 5 (by decide) (by decide)

end Proofs

end Vibercizing
